import Mathlib

/-!
Verification development for a local process supervisor (src/main.py).

The supervision core is shallowly embedded: the per-service runtime state
(`ServiceRuntime` in the source) becomes an explicit state record, and each
method becomes a state-transforming function.  Interactions with the outside
world — filesystem checks (os.path.isfile), process spawning (subprocess.Popen),
the timed health-poll loops, and the grace window of termination — are made
explicit as oracle inputs (`StartEnv`, `HealthEnv`, boolean outcome flags),
since wall-clock time and OS processes have no direct shallow embedding.
Restart scheduling returns the computed delay as data (`Option ℚ`) instead of
spawning a timer thread; Python numeric values are modelled as ℚ/Int/Nat.
-/

namespace LauncherGui

/-- The six status strings of the source (STATUS_IDLE .. STATUS_EXITED). -/
inductive Status where
  | idle
  | starting
  | running
  | failed
  | stopped
  | exited
deriving DecidableEq, Repr

/-- Health-wait descriptor: the `wait` dict of a service spec.  The source
dispatches on the string tag `wait.type`; the timed poll loops for the
port/http variants (timeout, 0.5s interval, early-exit and stop checks) are
abstracted into oracle outcomes carried by `HealthEnv`, so the `value` and
`timeout` entries do not affect the modelled outcome and are omitted. -/
structure WaitCfg where
  typ : String
deriving DecidableEq, Repr

/-- A service spec after `load_config` defaulting and `ServiceRuntime.__init__`
field extraction (name, cmd, cwd, wait, auto_restart, max_restarts,
restart_backoff, restart_backoff_factor, required_files). -/
structure ServiceSpec where
  name : String
  cmd : List String
  cwd : String
  wait : WaitCfg
  auto_restart : Bool
  max_restarts : Int
  restart_backoff : ℚ
  restart_backoff_factor : ℚ
  required_files : List String
deriving DecidableEq, Repr

/-- A spawned child process handle: `self.proc`.  `alive = true` models
`proc.poll() is None`. -/
structure ChildProc where
  pid : Nat
  alive : Bool
deriving DecidableEq, Repr

/-- The mutable fields of `ServiceRuntime` relevant to the state machine:
proc, status, restarts, _stop_requested (set in `__init__`). -/
structure RuntimeState where
  proc : Option ChildProc
  status : Status
  restarts : Nat
  stop_requested : Bool
deriving DecidableEq, Repr

/-- The state right after `ServiceRuntime.__init__`: no process, Idle,
zero restarts, stop not requested. -/
def initState : RuntimeState :=
  { proc := none, status := Status.idle, restarts := 0, stop_requested := false }

/-- Whether the runtime currently owns a live child:
`self.proc and self.proc.poll() is None`. -/
def procAlive (s : RuntimeState) : Bool :=
  match s.proc with
  | none => false
  | some p => p.alive

/-- Oracle outcomes for the timed health-poll loops of `_wait_health`:
whether the port poll loop ended with the port observed open, whether the
requests library is importable, and whether the http poll loop ended with a
status code below 400. -/
structure HealthEnv where
  portSuccess : Bool
  requestsAvailable : Bool
  httpSuccess : Bool

/-- Outcome of `subprocess.Popen`: success with a pid, FileNotFoundError,
or any other exception. -/
inductive LaunchOutcome where
  | ok (pid : Nat)
  | fileNotFound
  | oserror

/-- Environment of one `start()` call: the filesystem predicate behind
`os.path.isfile`, the spawn outcome, the health-poll oracle, whether the
child exits inside the terminate grace window, and the global STOP_EVENT. -/
structure StartEnv where
  fs : String → Bool
  launch : LaunchOutcome
  health : HealthEnv
  graceExit : Bool
  stopEvent : Bool

/-- The `missing` list computed at the top of `start()`: required files rf
for which `os.path.isfile(os.path.join(self.cwd, rf))` is false. -/
def missingFiles (sp : ServiceSpec) (fs : String → Bool) : List String :=
  sp.required_files.filter (fun rf => ! fs (sp.cwd ++ "/" ++ rf))

/-- `_wait_health`: dispatch on the wait type string.  "none" returns True
immediately; "port"/"http" return the abstracted outcome of their poll loops
(http additionally requires the requests library); any other tag logs and
returns True. -/
def wait_health (w : WaitCfg) (env : HealthEnv) : Bool :=
  if w.typ = "none" then true
  else if w.typ = "port" then env.portSuccess
  else if w.typ = "http" then env.requestsAvailable && env.httpSuccess
  else true

/-- `_maybe_schedule_restart`: no-op when auto-restart is off, stop was
requested, or the global STOP_EVENT is set; no-op (log and stop) when
`max_restarts >= 0 and restarts >= max_restarts`; otherwise increment
`restarts` and schedule a delayed restart after
`restart_backoff * restart_backoff_factor ** (restarts - 1)` seconds.
The scheduled delay is returned as data instead of spawning a timer. -/
def maybe_schedule_restart (sp : ServiceSpec) (stopEvent : Bool)
    (s : RuntimeState) : RuntimeState × Option ℚ :=
  if sp.auto_restart = false ∨ s.stop_requested = true ∨ stopEvent = true then
    (s, none)
  else if 0 ≤ sp.max_restarts ∧ sp.max_restarts ≤ (s.restarts : Int) then
    (s, none)
  else
    ({ s with restarts := s.restarts + 1 },
     some (sp.restart_backoff * sp.restart_backoff_factor ^ s.restarts))

/-- `_terminate_internal(force)`: if the child is alive, send terminate, wait
up to the ~5s grace window, then kill if still alive and force is set.
`graceExit` is the oracle for "the child exited within the grace window";
after the call the child is alive only if it neither exited in the window nor
was force-killed. -/
def terminate_internal (force : Bool) (graceExit : Bool)
    (s : RuntimeState) : RuntimeState :=
  match s.proc with
  | none => s
  | some p =>
    if p.alive then
      { s with proc := some { p with alive := !graceExit && !force } }
    else s

/-- `start()`.  Returns the new state and the delay of a restart scheduled
during the call, if any.  Mirrors the source paths: already-alive no-op;
clear stop flag and set Starting; missing-required-file failure (returns
without restart scheduling); launch failure (schedules); health wait; on
health failure mark Failed while still Starting, force-terminate, and
schedule; on success mark Running. -/
def start (sp : ServiceSpec) (env : StartEnv)
    (s : RuntimeState) : RuntimeState × Option ℚ :=
  if procAlive s then (s, none)
  else
    let s1 : RuntimeState := { s with stop_requested := false, status := Status.starting }
    if missingFiles sp env.fs ≠ [] then
      ({ s1 with status := Status.failed }, none)
    else
      match env.launch with
      | LaunchOutcome.fileNotFound =>
        maybe_schedule_restart sp env.stopEvent { s1 with status := Status.failed }
      | LaunchOutcome.oserror =>
        maybe_schedule_restart sp env.stopEvent { s1 with status := Status.failed }
      | LaunchOutcome.ok pid =>
        let s2 : RuntimeState := { s1 with proc := some { pid := pid, alive := true } }
        let s3 : RuntimeState :=
          if wait_health sp.wait env.health then
            { s2 with status := Status.running }
          else
            let s2a : RuntimeState :=
              if s2.status = Status.starting then { s2 with status := Status.failed } else s2
            terminate_internal true env.graceExit s2a
        if s3.status = Status.failed then
          maybe_schedule_restart sp env.stopEvent s3
        else (s3, none)

/-- `stop(force)`: set the stop-requested flag, terminate the child, and set
status to Stopped unless it is already Failed or Exited (the source binds the
intermediate state; it is written out here). -/
def stop (force : Bool) (graceExit : Bool) (s : RuntimeState) : RuntimeState :=
  if (terminate_internal force graceExit { s with stop_requested := true }).status
        = Status.failed ∨
      (terminate_internal force graceExit { s with stop_requested := true }).status
        = Status.exited then
    terminate_internal force graceExit { s with stop_requested := true }
  else
    { terminate_internal force graceExit { s with stop_requested := true } with
        status := Status.stopped }

/-- Tail of `_read_stdout_loop` once the output stream ends: the child has
exited (its poll is no longer None); set status to Exited unless it is
Stopped or Failed, then evaluate restart scheduling. -/
def stdout_loop_end (sp : ServiceSpec) (stopEvent : Bool)
    (s : RuntimeState) : RuntimeState × Option ℚ :=
  maybe_schedule_restart sp stopEvent
    (if s.status ≠ Status.stopped ∧ s.status ≠ Status.failed then
      { s with proc := s.proc.map (fun p => { p with alive := false })
               status := Status.exited }
     else
      { s with proc := s.proc.map (fun p => { p with alive := false }) })

/-- One externally observable operation on a runtime: an explicit or
timer-fired `start`, an explicit `stop`, or the stream-end path of the
stdout drain thread (the three call sites that mutate runtime state). -/
inductive Op where
  | start (env : StartEnv)
  | stop (force graceExit : Bool)
  | stdoutEnd (stopEvent : Bool)

/-- Whether an operation is a (re)invocation of `start`. -/
def Op.isStart : Op → Bool
  | Op.start _ => true
  | Op.stop _ _ => false
  | Op.stdoutEnd _ => false

/-- Apply one operation, also reporting the delay of any restart it
scheduled. -/
def stepS (sp : ServiceSpec) (op : Op) (s : RuntimeState) : RuntimeState × Option ℚ :=
  match op with
  | Op.start env => start sp env s
  | Op.stop f g => (stop f g s, none)
  | Op.stdoutEnd ev => stdout_loop_end sp ev s

/-- Apply one operation, keeping only the state. -/
def step (sp : ServiceSpec) (op : Op) (s : RuntimeState) : RuntimeState :=
  (stepS sp op s).fst

/-- Apply a sequence of operations in order. -/
def run (sp : ServiceSpec) (ops : List Op) (s : RuntimeState) : RuntimeState :=
  ops.foldl (fun st op => step sp op st) s

/-- Iterated failing start attempts: attempt k+1 runs `start` on the state
left by the first k attempts, from a freshly constructed runtime. -/
def startFailIter (sp : ServiceSpec) (env : StartEnv) : Nat → RuntimeState
  | 0 => initState
  | Nat.succ k => (start sp env (startFailIter sp env k)).fst

/-- Number of restarts scheduled during the first k iterated start attempts. -/
def scheduledCount (sp : ServiceSpec) (env : StartEnv) : Nat → Nat
  | 0 => 0
  | Nat.succ k =>
    scheduledCount sp env k +
      (if ((start sp env (startFailIter sp env k)).snd).isSome then 1 else 0)

/-- One supervisor of the group: its spec plus its runtime state
(`ServiceRuntime(s)` objects held in `LauncherGUI.services`). -/
structure Supervisor where
  spec : ServiceSpec
  st : RuntimeState
deriving DecidableEq, Repr

/-- `ServiceRuntime(spec)` construction: fresh state. -/
def mkSupervisor (sp : ServiceSpec) : Supervisor :=
  { spec := sp, st := initState }

/-- The group state of `LauncherGUI`: start interval and ordered supervisors. -/
structure Group where
  start_interval_seconds : Nat
  services : List Supervisor
deriving DecidableEq, Repr

/-- Outcome of `_safe_load_config(initial=False)`: a validated
(start_interval, specs) pair, or an exception. -/
inductive LoadResult where
  | ok (start_interval : Nat) (specs : List ServiceSpec)
  | error

/-- `reload_config`: rejected (group untouched) when any supervisor has a
live child; otherwise load the config — on a load exception the group is
also untouched — and on success replace the interval and build fresh
supervisors. -/
def reload_config (r : LoadResult) (g : Group) : Group :=
  if g.services.any (fun sv => procAlive sv.st) then g
  else
    match r with
    | LoadResult.error => g
    | LoadResult.ok interval specs =>
      { start_interval_seconds := interval, services := specs.map mkSupervisor }

end LauncherGui

namespace LauncherGui

/-! Concrete fixtures used by witnesses and counterexamples. -/

/-- A baseline spec mirroring the template in `load_config`. -/
def spBase : ServiceSpec :=
  { name := "ExampleService"
    cmd := ["C:/path/to/app.exe", "--flag"]
    cwd := "C:/path/to"
    wait := { typ := "none" }
    auto_restart := false
    max_restarts := 0
    restart_backoff := 2
    restart_backoff_factor := 3 / 2
    required_files := [] }

/-- An environment where every file exists and launching succeeds. -/
def envOk : StartEnv :=
  { fs := fun _ => true
    launch := LaunchOutcome.ok 4242
    health := { portSuccess := true, requestsAvailable := true, httpSuccess := true }
    graceExit := false
    stopEvent := false }

/-- A runtime currently owning a live child with pid 42. -/
def livingState : RuntimeState :=
  { proc := some { pid := 42, alive := true }
    status := Status.running
    restarts := 1
    stop_requested := false }

end LauncherGui

namespace LauncherGui

/-- C2: if a required file is missing under the working directory, `start`
spawns no child (the proc handle is unchanged), sets status to Failed, and
schedules nothing. -/
theorem missing_file_no_spawn (sp : ServiceSpec) (env : StartEnv) (s : RuntimeState)
    (h1 : procAlive s = false) (h2 : missingFiles sp env.fs ≠ []) :
    (start sp env s).fst.status = Status.failed ∧
    (start sp env s).fst.proc = s.proc ∧
    (start sp env s).snd = none := by
  simp [start, h1, h2]

/-- Witness for C2 at a concrete spec with a missing required file. -/
theorem missing_file_no_spawn_witness :
    (start { spBase with required_files := ["data.bin"] }
        { envOk with fs := fun _ => false } initState).fst.status = Status.failed ∧
    (start { spBase with required_files := ["data.bin"] }
        { envOk with fs := fun _ => false } initState).fst.proc = initState.proc ∧
    (start { spBase with required_files := ["data.bin"] }
        { envOk with fs := fun _ => false } initState).snd = none :=
  missing_file_no_spawn _ _ _ rfl (by decide)

/-- C8: `start` on a runtime whose child is alive is an idempotent no-op:
the state (status, proc handle, counters) is returned unchanged and no
restart is scheduled. -/
theorem start_alive_noop (sp : ServiceSpec) (env : StartEnv) (s : RuntimeState)
    (h : procAlive s = true) :
    start sp env s = (s, none) := by
  simp [start, h]

/-- Witness for C8 at a concrete running state. -/
theorem start_alive_noop_witness :
    start spBase envOk livingState = (livingState, none) :=
  start_alive_noop spBase envOk livingState rfl

/-- C10: an unknown wait type makes `_wait_health` return true, so a start
whose spawn succeeds transitions to Running. -/
theorem unknown_wait_type_running (sp : ServiceSpec) (env : StartEnv)
    (s : RuntimeState) (pid : Nat)
    (h1 : sp.wait.typ ≠ "none") (h2 : sp.wait.typ ≠ "port")
    (h3 : sp.wait.typ ≠ "http") (h4 : procAlive s = false)
    (h5 : missingFiles sp env.fs = []) (h6 : env.launch = LaunchOutcome.ok pid) :
    wait_health sp.wait env.health = true ∧
    (start sp env s).fst.status = Status.running := by
  have hw : wait_health sp.wait env.health = true := by
    simp [wait_health, h1, h2, h3]
  refine ⟨hw, ?_⟩
  simp [start, h4, h5, h6, hw]

/-- Witness for C10 at a concrete spec whose wait type is the unknown tag
"tcp". -/
theorem unknown_wait_type_running_witness :
    wait_health ({ spBase with wait := { typ := "tcp" } } : ServiceSpec).wait envOk.health = true ∧
    (start { spBase with wait := { typ := "tcp" } } envOk initState).fst.status = Status.running :=
  unknown_wait_type_running { spBase with wait := { typ := "tcp" } } envOk initState 4242
    (by decide) (by decide) (by decide) rfl rfl rfl

/-- C4: whenever `_maybe_schedule_restart` schedules the k-th restart (the
counter moves from k-1 to k), the computed delay is exactly
`restart_backoff * restart_backoff_factor ^ (k - 1)`. -/
theorem backoff_delay_exact (sp : ServiceSpec) (s : RuntimeState) (k : Nat)
    (h_auto : sp.auto_restart = true) (h_stop : s.stop_requested = false)
    (h_lim : ¬(0 ≤ sp.max_restarts ∧ sp.max_restarts ≤ (s.restarts : Int)))
    (hk : s.restarts + 1 = k) :
    (maybe_schedule_restart sp false s).snd =
      some (sp.restart_backoff * sp.restart_backoff_factor ^ (k - 1)) ∧
    (maybe_schedule_restart sp false s).fst.restarts = k := by
  have hk1 : k - 1 = s.restarts := by omega
  simp [maybe_schedule_restart, h_auto, h_stop, h_lim, hk1, ← hk]

/-- Witness for C4: base 2 and multiplier 3/2 give delay 27/4 = 6.75 for the
fourth scheduled restart. -/
theorem backoff_delay_exact_witness :
    (maybe_schedule_restart { spBase with auto_restart := true, max_restarts := 10 } false
        { initState with restarts := 3 }).snd = some ((27 : ℚ) / 4) ∧
    (maybe_schedule_restart { spBase with auto_restart := true, max_restarts := 10 } false
        { initState with restarts := 3 }).fst.restarts = 4 := by
  have h := backoff_delay_exact { spBase with auto_restart := true, max_restarts := 10 }
    { initState with restarts := 3 } 4 rfl rfl (by decide) rfl
  refine ⟨h.1.trans ?_, h.2⟩
  norm_num [spBase]

end LauncherGui

namespace LauncherGui

/-! Field-preservation helper lemmas. -/

/-- `_terminate_internal` does not change the status. -/
theorem terminate_internal_status (f g : Bool) (s : RuntimeState) :
    (terminate_internal f g s).status = s.status := by
  cases hp : s.proc with
  | none => simp [terminate_internal, hp]
  | some p =>
    by_cases ha : p.alive <;> simp [terminate_internal, hp, ha]

/-- `_terminate_internal` does not change the stop flag. -/
theorem terminate_internal_stop_requested (f g : Bool) (s : RuntimeState) :
    (terminate_internal f g s).stop_requested = s.stop_requested := by
  cases hp : s.proc with
  | none => simp [terminate_internal, hp]
  | some p =>
    by_cases ha : p.alive <;> simp [terminate_internal, hp, ha]

/-- `_terminate_internal` does not change the restart counter. -/
theorem terminate_internal_restarts (f g : Bool) (s : RuntimeState) :
    (terminate_internal f g s).restarts = s.restarts := by
  cases hp : s.proc with
  | none => simp [terminate_internal, hp]
  | some p =>
    by_cases ha : p.alive <;> simp [terminate_internal, hp, ha]

/-- `_maybe_schedule_restart` does not change the status. -/
theorem maybe_schedule_restart_status (sp : ServiceSpec) (ev : Bool) (s : RuntimeState) :
    (maybe_schedule_restart sp ev s).fst.status = s.status := by
  unfold maybe_schedule_restart
  split
  · simp
  · split <;> simp

/-- `_maybe_schedule_restart` does not change the stop flag. -/
theorem maybe_schedule_restart_stop_requested (sp : ServiceSpec) (ev : Bool)
    (s : RuntimeState) :
    (maybe_schedule_restart sp ev s).fst.stop_requested = s.stop_requested := by
  unfold maybe_schedule_restart
  split
  · simp
  · split <;> simp

/-- `_maybe_schedule_restart` does not change the proc handle. -/
theorem maybe_schedule_restart_proc (sp : ServiceSpec) (ev : Bool) (s : RuntimeState) :
    (maybe_schedule_restart sp ev s).fst.proc = s.proc := by
  unfold maybe_schedule_restart
  split
  · simp
  · split <;> simp

/-- `_maybe_schedule_restart` with the stop flag set is a complete no-op. -/
theorem maybe_schedule_restart_stopped (sp : ServiceSpec) (ev : Bool) (s : RuntimeState)
    (h : s.stop_requested = true) :
    maybe_schedule_restart sp ev s = (s, none) := by
  simp [maybe_schedule_restart, h]

/-- `_maybe_schedule_restart` with auto-restart disabled is a complete no-op. -/
theorem maybe_schedule_restart_disabled (sp : ServiceSpec) (ev : Bool) (s : RuntimeState)
    (h : sp.auto_restart = false) :
    maybe_schedule_restart sp ev s = (s, none) := by
  simp [maybe_schedule_restart, h]

/-- `start` is a no-op or leaves the stop flag cleared: it sets the flag to
false before any work and nothing on its paths sets it again. -/
theorem start_clears_stop_flag (sp : ServiceSpec) (env : StartEnv) (s : RuntimeState)
    (h : procAlive s = false) :
    (start sp env s).fst.stop_requested = false := by
  unfold start
  rw [h]
  simp only [Bool.false_eq_true, if_false]
  split
  · simp
  · cases hl : env.launch with
    | fileNotFound => simp [maybe_schedule_restart_stop_requested]
    | oserror => simp [maybe_schedule_restart_stop_requested]
    | ok pid =>
      by_cases hw : wait_health sp.wait env.health = true
      · simp [hw]
      · simp only [Bool.not_eq_true] at hw
        simp only [hw, Bool.false_eq_true, if_false]
        split <;>
          simp [maybe_schedule_restart_stop_requested, terminate_internal_stop_requested,
            terminate_internal_status]

end LauncherGui

namespace LauncherGui

/-- A step that is not a start neither schedules a restart nor clears the
stop flag once it is set. -/
theorem stepS_nonstart_stopped (sp : ServiceSpec) (op : Op) (s : RuntimeState)
    (hs : s.stop_requested = true) (hop : op.isStart = false) :
    (stepS sp op s).snd = none ∧ (stepS sp op s).fst.stop_requested = true := by
  cases op with
  | start env => simp [Op.isStart] at hop
  | stop f g =>
    refine ⟨rfl, ?_⟩
    show (stop f g s).stop_requested = true
    unfold stop
    split <;> simp [terminate_internal_stop_requested]
  | stdoutEnd ev =>
    show (stdout_loop_end sp ev s).snd = none ∧
      (stdout_loop_end sp ev s).fst.stop_requested = true
    unfold stdout_loop_end
    split <;> simp [maybe_schedule_restart_stopped, hs]

/-- C6: `stop` sets the stop-requested flag and sets status to Stopped
unless the status is already Failed or Exited; once the flag is set,
`_maybe_schedule_restart` is a complete no-op and every non-start operation
keeps the flag set and schedules nothing; a new `start` on a dead runtime is
what clears the flag again. -/
theorem stop_suppresses_restarts (sp : ServiceSpec) :
    (∀ (f g : Bool) (s : RuntimeState),
        (stop f g s).stop_requested = true ∧
        (stop f g s).status =
          (if s.status = Status.failed ∨ s.status = Status.exited then s.status
           else Status.stopped)) ∧
    (∀ (ev : Bool) (s : RuntimeState), s.stop_requested = true →
        maybe_schedule_restart sp ev s = (s, none)) ∧
    (∀ (op : Op) (s : RuntimeState), s.stop_requested = true → op.isStart = false →
        (stepS sp op s).snd = none ∧ (stepS sp op s).fst.stop_requested = true) ∧
    (∀ (env : StartEnv) (s : RuntimeState), procAlive s = false →
        (start sp env s).fst.stop_requested = false) := by
  refine ⟨?_, maybe_schedule_restart_stopped sp, stepS_nonstart_stopped sp,
    start_clears_stop_flag sp⟩
  intro f g s
  constructor
  · unfold stop
    split <;> simp [terminate_internal_stop_requested]
  · unfold stop
    split
    · rename_i hr
      rw [terminate_internal_status] at hr ⊢
      simp at hr
      simp [hr]
    · rename_i hr
      rw [terminate_internal_status] at hr
      simp at hr
      simp [hr.1, hr.2]

/-- Witness for C6 at a concrete running state and a concrete non-start
operation. -/
theorem stop_suppresses_restarts_witness :
    ((stop true false livingState).stop_requested = true ∧
      (stop true false livingState).status =
        (if livingState.status = Status.failed ∨ livingState.status = Status.exited
         then livingState.status else Status.stopped)) ∧
    maybe_schedule_restart spBase false (stop true false livingState) =
      (stop true false livingState, none) ∧
    (stepS spBase (Op.stdoutEnd false) (stop true false livingState)).snd = none ∧
    (start spBase envOk initState).fst.stop_requested = false := by
  have h := stop_suppresses_restarts spBase
  refine ⟨h.1 true false livingState, ?_, ?_, h.2.2.2 envOk initState rfl⟩
  · exact h.2.1 false (stop true false livingState) (h.1 true false livingState).1
  · exact (h.2.2.1 (Op.stdoutEnd false) (stop true false livingState)
      (h.1 true false livingState).1 rfl).1

/-- With auto-restart disabled, `start` never schedules a restart. -/
theorem start_snd_disabled (sp : ServiceSpec) (env : StartEnv) (s : RuntimeState)
    (h_ar : sp.auto_restart = false) :
    (start sp env s).snd = none := by
  simp only [start]
  split
  · rfl
  · split
    · rfl
    · split
      · simp [maybe_schedule_restart_disabled, h_ar]
      · simp [maybe_schedule_restart_disabled, h_ar]
      · split
        · simp
        · simp [terminate_internal_status, maybe_schedule_restart_disabled, h_ar]

/-- With auto-restart disabled no operation ever schedules a restart. -/
theorem stepS_disabled_none (sp : ServiceSpec) (op : Op) (s : RuntimeState)
    (h_ar : sp.auto_restart = false) :
    (stepS sp op s).snd = none := by
  cases op with
  | start env => exact start_snd_disabled sp env s h_ar
  | stop f g => rfl
  | stdoutEnd ev =>
    show (stdout_loop_end sp ev s).snd = none
    unfold stdout_loop_end
    split <;> simp [maybe_schedule_restart_disabled, h_ar]

/-- A non-start step never moves the status away from Failed. -/
theorem step_preserves_failed (sp : ServiceSpec) (op : Op) (s : RuntimeState)
    (hs : s.status = Status.failed) (hop : op.isStart = false) :
    (step sp op s).status = Status.failed := by
  cases op with
  | start env => simp [Op.isStart] at hop
  | stop f g =>
    show (stop f g s).status = Status.failed
    unfold stop
    split
    · rw [terminate_internal_status]
      exact hs
    · rename_i hcond
      exfalso
      apply hcond
      left
      rw [terminate_internal_status]
      exact hs
  | stdoutEnd ev =>
    show (stdout_loop_end sp ev s).fst.status = Status.failed
    unfold stdout_loop_end
    split
    · rename_i hc
      exact absurd hs hc.2
    · rw [maybe_schedule_restart_status]
      exact hs

/-- C7: with auto-restart disabled, a launch failure (executable not found)
sets status to Failed, schedules nothing, and no sequence of non-start
operations ever moves the status away from Failed; moreover no operation at
all schedules a restart for such a spec. -/
theorem launch_failure_permanent_when_disabled (sp : ServiceSpec) (env : StartEnv)
    (s : RuntimeState) (h_ar : sp.auto_restart = false)
    (h_alive : procAlive s = false) (h_miss : missingFiles sp env.fs = [])
    (h_launch : env.launch = LaunchOutcome.fileNotFound) :
    (start sp env s).fst.status = Status.failed ∧
    (start sp env s).snd = none ∧
    (∀ (op : Op) (t : RuntimeState), (stepS sp op t).snd = none) ∧
    (∀ (ops : List Op), (∀ op ∈ ops, op.isStart = false) →
        (run sp ops (start sp env s).fst).status = Status.failed) := by
  have hfail : (start sp env s).fst.status = Status.failed := by
    unfold start
    rw [h_alive]
    simp [h_miss, h_launch, maybe_schedule_restart_status]
  refine ⟨hfail, start_snd_disabled sp env s h_ar,
    fun op t => stepS_disabled_none sp op t h_ar, ?_⟩
  · intro ops
    generalize (start sp env s).fst = t at hfail ⊢
    induction ops generalizing t with
    | nil => intro _; simpa [run]
    | cons op rest ih =>
      intro hall
      have h1 : (step sp op t).status = Status.failed :=
        step_preserves_failed sp op t hfail (hall op (List.mem_cons_self op rest))
      have : run sp (op :: rest) t = run sp rest (step sp op t) := rfl
      rw [this]
      exact ih (step sp op t) h1 (fun o ho => hall o (List.mem_cons_of_mem op ho))

/-- Witness for C7 at a concrete spec with auto-restart off and a missing
executable. -/
theorem launch_failure_permanent_witness :
    (start spBase { envOk with launch := LaunchOutcome.fileNotFound } initState).fst.status
        = Status.failed ∧
    (run spBase [Op.stdoutEnd false, Op.stop true false]
        (start spBase { envOk with launch := LaunchOutcome.fileNotFound } initState).fst).status
        = Status.failed := by
  have h := launch_failure_permanent_when_disabled spBase
    { envOk with launch := LaunchOutcome.fileNotFound } initState rfl rfl rfl rfl
  exact ⟨h.1, h.2.2.2 [Op.stdoutEnd false, Op.stop true false] (by intro op hop; fin_cases hop <;> rfl)⟩

end LauncherGui

namespace LauncherGui

/-- A spec with auto-restart enabled, a generous restart budget, and one
required file. -/
def spC1 : ServiceSpec :=
  { spBase with auto_restart := true, max_restarts := 5, required_files := ["lib.dll"] }

/-- An environment whose filesystem has no files at all. -/
def envMissing : StartEnv := { envOk with fs := fun _ => false }

/-- C1 counterexample: with auto-restart on, no stop requested, and a
required file missing, the failed `start` schedules nothing and leaves the
restart counter at 0 — even though `_maybe_schedule_restart`, had it been
invoked on the resulting state, would have scheduled a restart. -/
theorem missing_file_schedules_cx :
    (start spC1 envMissing initState).snd = none ∧
    (start spC1 envMissing initState).fst.restarts = 0 ∧
    (start spC1 envMissing initState).fst.status = Status.failed ∧
    (maybe_schedule_restart spC1 false
        (start spC1 envMissing initState).fst).snd.isSome = true := by
  decide

/-- C1 (amended): a `start` that fails because of a missing required file
returns without invoking restart scheduling (no delay scheduled, counter
unchanged), unlike a launch failure, after which `start` is exactly
`_maybe_schedule_restart` applied to the Failed state. -/
theorem missing_file_skips_restart_scheduling (sp : ServiceSpec)
    (env env2 : StartEnv) (s : RuntimeState)
    (h1 : procAlive s = false) (h2 : missingFiles sp env.fs ≠ [])
    (h3 : missingFiles sp env2.fs = []) (h4 : env2.launch = LaunchOutcome.fileNotFound) :
    ((start sp env s).snd = none ∧ (start sp env s).fst.restarts = s.restarts) ∧
    start sp env2 s =
      maybe_schedule_restart sp env2.stopEvent
        { s with stop_requested := false, status := Status.failed } := by
  constructor
  · simp [start, h1, h2]
  · simp [start, h1, h3, h4]

/-- Witness for the amended C1 at concrete inputs. -/
theorem missing_file_skips_restart_scheduling_witness :
    ((start spC1 envMissing initState).snd = none ∧
      (start spC1 envMissing initState).fst.restarts = initState.restarts) ∧
    start spC1 { envOk with launch := LaunchOutcome.fileNotFound } initState =
      maybe_schedule_restart spC1
        ({ envOk with launch := LaunchOutcome.fileNotFound } : StartEnv).stopEvent
        { initState with stop_requested := false, status := Status.failed } :=
  missing_file_skips_restart_scheduling spC1 envMissing
    { envOk with launch := LaunchOutcome.fileNotFound } initState rfl (by decide) rfl rfl

/-- A supervisor with no live child but a used restart budget. -/
def svStale : Supervisor :=
  { spec := spBase, st := { initState with restarts := 3, status := Status.stopped } }

/-- A group holding only `svStale`. -/
def gStale : Group := { start_interval_seconds := 5, services := [svStale] }

/-- A group holding one supervisor with a live child. -/
def gLive : Group :=
  { start_interval_seconds := 5, services := [{ spec := spBase, st := livingState }] }

/-- C9 counterexample: a reload attempt whose config load raises is rejected
with the group unchanged even though no supervisor has a live child — the
old supervisor set (restart counter 3) survives instead of being replaced by
fresh zero-counter supervisors. -/
theorem reload_accept_cx :
    (gStale.services.any (fun sv => procAlive sv.st)) = false ∧
    reload_config LoadResult.error gStale = gStale ∧
    (reload_config LoadResult.error gStale).services.map (fun sv => sv.st.restarts)
      = [3] :=
  ⟨rfl, rfl, rfl⟩

/-- C9 (amended): reload is rejected with the group entirely unchanged
whenever any supervisor has a live child, and also when the config load
fails; when no supervisor has a live child and the load succeeds it is
accepted, installing the loaded interval and freshly constructed supervisors
whose restart counters are all zero. -/
theorem reload_config_behavior (g : Group) (r : LoadResult) :
    (g.services.any (fun sv => procAlive sv.st) = true → reload_config r g = g) ∧
    (reload_config LoadResult.error g = g) ∧
    (∀ (i : Nat) (specs : List ServiceSpec),
        g.services.any (fun sv => procAlive sv.st) = false →
        reload_config (LoadResult.ok i specs) g =
          { start_interval_seconds := i, services := specs.map mkSupervisor } ∧
        ∀ sv ∈ (reload_config (LoadResult.ok i specs) g).services,
          sv.st.restarts = 0) := by
  refine ⟨?_, ?_, ?_⟩
  · intro h
    simp [reload_config, h]
  · unfold reload_config
    split <;> rfl
  · intro i specs h
    constructor
    · simp [reload_config, h]
    · intro sv hsv
      simp only [reload_config, h, Bool.false_eq_true, if_false, List.mem_map] at hsv
      obtain ⟨a, _, rfl⟩ := hsv
      rfl

/-- Witness for the amended C9: acceptance on a stale group, rejection on a
load error, zero counters after acceptance, rejection on a live group. -/
theorem reload_config_behavior_witness :
    reload_config (LoadResult.ok 9 [spBase]) gStale =
      { start_interval_seconds := 9, services := [spBase].map mkSupervisor } ∧
    reload_config LoadResult.error gStale = gStale ∧
    (∀ sv ∈ (reload_config (LoadResult.ok 9 [spBase]) gStale).services,
        sv.st.restarts = 0) ∧
    reload_config (LoadResult.ok 9 [spBase]) gLive = gLive := by
  have h1 := reload_config_behavior gStale (LoadResult.ok 9 [spBase])
  have h2 := reload_config_behavior gLive (LoadResult.ok 9 [spBase])
  exact ⟨(h1.2.2 9 [spBase] rfl).1, h1.2.1, (h1.2.2 9 [spBase] rfl).2, h2.1 rfl⟩

end LauncherGui

namespace LauncherGui

/-- `_maybe_schedule_restart` never decreases the restart counter. -/
theorem maybe_schedule_restart_restarts_le (sp : ServiceSpec) (ev : Bool)
    (t : RuntimeState) :
    t.restarts ≤ (maybe_schedule_restart sp ev t).fst.restarts := by
  unfold maybe_schedule_restart
  split
  · exact le_rfl
  · split
    · exact le_rfl
    · exact Nat.le_succ _

/-- `_maybe_schedule_restart` keeps the counter within a non-negative
max_restarts. -/
theorem maybe_schedule_restart_restarts_bound (sp : ServiceSpec) (ev : Bool)
    (t : RuntimeState) (h0 : 0 ≤ sp.max_restarts)
    (hb : (t.restarts : Int) ≤ sp.max_restarts) :
    ((maybe_schedule_restart sp ev t).fst.restarts : Int) ≤ sp.max_restarts := by
  unfold maybe_schedule_restart
  split
  · exact hb
  · split
    · exact hb
    · rename_i hguard
      show ((t.restarts + 1 : Nat) : Int) ≤ sp.max_restarts
      omega

/-- `stop` never changes the restart counter. -/
theorem stop_restarts (f g : Bool) (s : RuntimeState) :
    (stop f g s).restarts = s.restarts := by
  unfold stop
  split <;> simp [terminate_internal_restarts]

/-- `start` never decreases the restart counter. -/
theorem start_restarts_le (sp : ServiceSpec) (env : StartEnv) (s : RuntimeState) :
    s.restarts ≤ (start sp env s).fst.restarts := by
  unfold start
  dsimp only
  split
  · exact le_rfl
  · split
    · exact le_rfl
    · split
      · refine le_trans ?_ (maybe_schedule_restart_restarts_le sp env.stopEvent _)
        exact le_rfl
      · refine le_trans ?_ (maybe_schedule_restart_restarts_le sp env.stopEvent _)
        exact le_rfl
      · split
        · exact le_rfl
        · split
          · refine le_trans ?_ (maybe_schedule_restart_restarts_le sp env.stopEvent _)
            exact le_rfl
          · exact le_rfl

/-- `start` keeps the counter within a non-negative max_restarts. -/
theorem start_restarts_bound (sp : ServiceSpec) (env : StartEnv) (s : RuntimeState)
    (h0 : 0 ≤ sp.max_restarts) (hb : (s.restarts : Int) ≤ sp.max_restarts) :
    ((start sp env s).fst.restarts : Int) ≤ sp.max_restarts := by
  unfold start
  dsimp only
  split
  · exact hb
  · split
    · exact hb
    · split
      · exact maybe_schedule_restart_restarts_bound sp env.stopEvent _ h0 hb
      · exact maybe_schedule_restart_restarts_bound sp env.stopEvent _ h0 hb
      · split
        · simpa using hb
        · split
          · exact maybe_schedule_restart_restarts_bound sp env.stopEvent _ h0
              (by simpa [terminate_internal_restarts] using hb)
          · simpa [terminate_internal_restarts] using hb

/-- `stdout_loop_end` never decreases the restart counter. -/
theorem stdout_loop_end_restarts_le (sp : ServiceSpec) (ev : Bool) (s : RuntimeState) :
    s.restarts ≤ (stdout_loop_end sp ev s).fst.restarts := by
  unfold stdout_loop_end
  split
  · exact le_trans (by simp) (maybe_schedule_restart_restarts_le sp ev _)
  · exact le_trans (by simp) (maybe_schedule_restart_restarts_le sp ev _)

/-- `stdout_loop_end` keeps the counter within a non-negative max_restarts. -/
theorem stdout_loop_end_restarts_bound (sp : ServiceSpec) (ev : Bool) (s : RuntimeState)
    (h0 : 0 ≤ sp.max_restarts) (hb : (s.restarts : Int) ≤ sp.max_restarts) :
    ((stdout_loop_end sp ev s).fst.restarts : Int) ≤ sp.max_restarts := by
  unfold stdout_loop_end
  split
  · exact maybe_schedule_restart_restarts_bound sp ev _ h0 (by simpa using hb)
  · exact maybe_schedule_restart_restarts_bound sp ev _ h0 (by simpa using hb)

/-- One step never decreases the restart counter. -/
theorem step_restarts_le (sp : ServiceSpec) (op : Op) (s : RuntimeState) :
    s.restarts ≤ (step sp op s).restarts := by
  cases op with
  | start env => exact start_restarts_le sp env s
  | stop f g => exact le_of_eq (stop_restarts f g s).symm
  | stdoutEnd ev => exact stdout_loop_end_restarts_le sp ev s

/-- One step keeps the counter within a non-negative max_restarts. -/
theorem step_restarts_bound (sp : ServiceSpec) (op : Op) (s : RuntimeState)
    (h0 : 0 ≤ sp.max_restarts) (hb : (s.restarts : Int) ≤ sp.max_restarts) :
    ((step sp op s).restarts : Int) ≤ sp.max_restarts := by
  cases op with
  | start env => exact start_restarts_bound sp env s h0 hb
  | stop f g =>
    show ((stop f g s).restarts : Int) ≤ sp.max_restarts
    rw [stop_restarts]
    exact hb
  | stdoutEnd ev => exact stdout_loop_end_restarts_bound sp ev s h0 hb

/-- A run never decreases the restart counter. -/
theorem run_restarts_le (sp : ServiceSpec) (ops : List Op) (s : RuntimeState) :
    s.restarts ≤ (run sp ops s).restarts := by
  induction ops generalizing s with
  | nil => exact le_rfl
  | cons op rest ih => exact le_trans (step_restarts_le sp op s) (ih (step sp op s))

/-- A run keeps the counter within a non-negative max_restarts. -/
theorem run_restarts_bound (sp : ServiceSpec) (ops : List Op) (s : RuntimeState)
    (h0 : 0 ≤ sp.max_restarts) (hb : (s.restarts : Int) ≤ sp.max_restarts) :
    ((run sp ops s).restarts : Int) ≤ sp.max_restarts := by
  induction ops generalizing s with
  | nil => exact hb
  | cons op rest ih => exact ih (step sp op s) (step_restarts_bound sp op s h0 hb)

/-- C5: a fresh supervisor starts at zero restarts; no operation ever
decreases the counter (so along any run it is monotone), and when
max_restarts is non-negative the counter never exceeds it on any run from
construction. -/
theorem restarts_monotone_and_bounded (sp : ServiceSpec) :
    initState.restarts = 0 ∧
    (∀ (op : Op) (s : RuntimeState), s.restarts ≤ (step sp op s).restarts) ∧
    (∀ (ops tail : List Op) (s : RuntimeState),
        (run sp ops s).restarts ≤ (run sp (ops ++ tail) s).restarts) ∧
    (0 ≤ sp.max_restarts →
      ∀ (ops : List Op), ((run sp ops initState).restarts : Int) ≤ sp.max_restarts) := by
  refine ⟨rfl, step_restarts_le sp, ?_, ?_⟩
  · intro ops tail s
    have hsplit : run sp (ops ++ tail) s = run sp tail (run sp ops s) := by
      simp [run, List.foldl_append]
    rw [hsplit]
    exact run_restarts_le sp tail (run sp ops s)
  · intro h0 ops
    exact run_restarts_bound sp ops initState h0 (by simpa using h0)

/-- Witness for C5 at a concrete spec with max_restarts = 5 and concrete
operation sequences. -/
theorem restarts_monotone_and_bounded_witness :
    livingState.restarts ≤ (step spC1 (Op.stop true false) livingState).restarts ∧
    (run spC1 [Op.stdoutEnd false] initState).restarts ≤
      (run spC1 ([Op.stdoutEnd false] ++ [Op.start envMissing]) initState).restarts ∧
    ((run spC1 [Op.stdoutEnd false, Op.start envMissing] initState).restarts : Int)
      ≤ spC1.max_restarts := by
  have h := restarts_monotone_and_bounded spC1
  exact ⟨h.2.1 (Op.stop true false) livingState,
    h.2.2.1 [Op.stdoutEnd false] [Op.start envMissing] initState,
    h.2.2.2 (by decide) [Op.stdoutEnd false, Op.start envMissing]⟩

end LauncherGui

namespace LauncherGui

/-- A `start` whose spawn succeeds but whose health check fails: the state
becomes a dead child + Failed, and restart scheduling is evaluated on it. -/
theorem start_fail_eq (sp : ServiceSpec) (env : StartEnv) (pid : Nat)
    (h3 : missingFiles sp env.fs = []) (h4 : env.launch = LaunchOutcome.ok pid)
    (h5 : wait_health sp.wait env.health = false) (h6 : env.stopEvent = false)
    (t : RuntimeState) (ht : procAlive t = false) :
    start sp env t =
      maybe_schedule_restart sp false
        { proc := some { pid := pid, alive := false }, status := Status.failed,
          restarts := t.restarts, stop_requested := false } := by
  unfold start
  rw [ht, h4]
  simp [h3, h5, h6, terminate_internal]

/-- Closed form of the iterated failing start attempts: after k attempts the
runtime holds a dead child (none before the first), status Failed (Idle
before the first), counter min k N, stop flag clear. -/
theorem startFailIter_closed (sp : ServiceSpec) (env : StartEnv) (N pid : Nat)
    (h1 : sp.auto_restart = true) (h2 : sp.max_restarts = (N : Int))
    (h3 : missingFiles sp env.fs = []) (h4 : env.launch = LaunchOutcome.ok pid)
    (h5 : wait_health sp.wait env.health = false) (h6 : env.stopEvent = false) :
    ∀ k : Nat,
      startFailIter sp env k =
        { proc := if k = 0 then none else some { pid := pid, alive := false },
          status := if k = 0 then Status.idle else Status.failed,
          restarts := min k N,
          stop_requested := false } := by
  intro k
  induction k with
  | zero => simp [startFailIter, initState]
  | succ k ih =>
    show (start sp env (startFailIter sp env k)).fst = _
    rw [ih, start_fail_eq sp env pid h3 h4 h5 h6]
    · unfold maybe_schedule_restart
      dsimp only
      simp only [h1, h2]
      rw [if_neg (by simp)]
      split
      · rename_i hge
        simp only [RuntimeState.mk.injEq, Nat.succ_ne_zero, if_false, true_and,
          and_true]
        omega
      · rename_i hlt
        simp only [RuntimeState.mk.injEq, Nat.succ_ne_zero, if_false, true_and,
          and_true]
        omega
    · by_cases hk : k = 0 <;> simp [procAlive, hk]

/-- The delay scheduled by the k-th iterated failing attempt: present while
k < N, absent afterwards. -/
theorem start_iter_snd (sp : ServiceSpec) (env : StartEnv) (N pid : Nat)
    (h1 : sp.auto_restart = true) (h2 : sp.max_restarts = (N : Int))
    (h3 : missingFiles sp env.fs = []) (h4 : env.launch = LaunchOutcome.ok pid)
    (h5 : wait_health sp.wait env.health = false) (h6 : env.stopEvent = false)
    (k : Nat) :
    (start sp env (startFailIter sp env k)).snd =
      if k < N then
        some (sp.restart_backoff * sp.restart_backoff_factor ^ (min k N))
      else none := by
  rw [startFailIter_closed sp env N pid h1 h2 h3 h4 h5 h6 k,
    start_fail_eq sp env pid h3 h4 h5 h6]
  · unfold maybe_schedule_restart
    dsimp only
    simp only [h1, h2]
    rw [if_neg (by simp)]
    split
    · rename_i hge
      rw [if_neg (by omega)]
    · rename_i hlt
      rw [if_pos (by omega)]
  · by_cases hk : k = 0 <;> simp [procAlive, hk]

/-- C3: with auto-restart on, max_restarts = N >= 0, and every attempt
failing its health check, the counter after k attempts is min k N, every
attempt leaves status Failed, exactly N restarts are scheduled in total over
any number of attempts, and from the N-th attempt on restart scheduling is a
no-op. -/
theorem restart_exhaustion (sp : ServiceSpec) (env : StartEnv) (N pid : Nat)
    (h1 : sp.auto_restart = true) (h2 : sp.max_restarts = (N : Int))
    (h3 : missingFiles sp env.fs = []) (h4 : env.launch = LaunchOutcome.ok pid)
    (h5 : wait_health sp.wait env.health = false) (h6 : env.stopEvent = false) :
    (∀ k, (startFailIter sp env k).restarts = min k N) ∧
    (∀ k, 1 ≤ k → (startFailIter sp env k).status = Status.failed) ∧
    (∀ k, scheduledCount sp env k = min k N) ∧
    (∀ k, N ≤ k → (start sp env (startFailIter sp env k)).snd = none) := by
  have hclosed := startFailIter_closed sp env N pid h1 h2 h3 h4 h5 h6
  have hsnd := start_iter_snd sp env N pid h1 h2 h3 h4 h5 h6
  refine ⟨?_, ?_, ?_, ?_⟩
  · intro k
    rw [hclosed k]
  · intro k hk
    rw [hclosed k]
    simp [Nat.one_le_iff_ne_zero.mp hk]
  · intro k
    induction k with
    | zero =>
      show 0 = min 0 N
      omega
    | succ k ih =>
      show scheduledCount sp env k +
        (if ((start sp env (startFailIter sp env k)).snd).isSome then 1 else 0) = _
      rw [ih, hsnd k]
      by_cases hk : k < N
      · rw [if_pos hk]
        simp only [Option.isSome_some, if_pos]
        omega
      · rw [if_neg hk]
        simp only [Option.isSome_none, Bool.false_eq_true, if_false]
        omega
  · intro k hk
    rw [hsnd k, if_neg (by omega)]

/-- A spec with auto-restart on, a budget of two restarts, and a port health
check. -/
def spC3 : ServiceSpec :=
  { spBase with auto_restart := true, max_restarts := 2, wait := { typ := "port" } }

/-- An environment where the port never comes up. -/
def envC3 : StartEnv :=
  { envOk with
      launch := LaunchOutcome.ok 7
      health := { portSuccess := false, requestsAvailable := true, httpSuccess := true } }

/-- Witness for C3: with max_restarts = 2, three failing attempts schedule
exactly 2 restarts, end Failed with counter 2, and the third attempt
schedules nothing. -/
theorem restart_exhaustion_witness :
    scheduledCount spC3 envC3 3 = 2 ∧
    (startFailIter spC3 envC3 3).restarts = 2 ∧
    (startFailIter spC3 envC3 3).status = Status.failed ∧
    (start spC3 envC3 (startFailIter spC3 envC3 3)).snd = none := by
  have h := restart_exhaustion spC3 envC3 2 7 rfl (by decide) rfl rfl (by decide) rfl
  exact ⟨(h.2.2.1 3).trans (by norm_num), (h.1 3).trans (by norm_num),
    h.2.1 3 (by norm_num), h.2.2.2 3 (by norm_num)⟩

end LauncherGui
